import Mathlib

/-!
Verification of the `pdf_parser` package and the `app.py` HTTP layer.

The repository delegates low-level PDF decoding to the third-party `pypdf`
library; the code under verification consumes a `pypdf.PdfReader` through a
narrow interface only: the Info-dictionary fields `/Title`, `/Author`,
`/CreationDate` and, per page, the string returned by `page.extract_text()`.
We model that interface as the structure `PdfReader` below, and model the
library's reader construction (`pypdf.PdfReader(io.BytesIO(data))`), which
may raise, as an arbitrary function from the input bytes to
`Except EngineErr PdfReader`.  All logic of `src/pdf_parser/parser.py` and of
the endpoint handlers in `src/app.py` is embedded directly.
-/

namespace PdfParse

/-- Embedding of Python `str.strip()`: remove leading and trailing whitespace
characters.  `List.rdropWhile` removes the trailing run. -/
def pyStrip (s : String) : String :=
  String.mk ((s.data.dropWhile Char.isWhitespace).rdropWhile Char.isWhitespace)

/-- Embedding of Python `x or ""` applied to an optional string (as in
`page.extract_text() or ""`): `None` becomes the empty string.  (A present
empty string is also mapped to itself, matching Python truthiness.) -/
def orEmpty (t : Option String) : String :=
  match t with
  | none => ""
  | some s => s

/-- Embedding of Python `str.lower()`. -/
def pyLower (s : String) : String :=
  String.mk (s.data.map Char.toLower)

/-- Embedding of Python `s.endswith(post)`. -/
def pyEndsWith (s post : String) : Bool :=
  List.isSuffixOf post.data s.data

/-- Naive decidable substring test on character lists: `hasSub needle hay` is
`true` iff `needle` occurs contiguously inside `hay`. -/
def hasSub (needle : List Char) : List Char → Bool
  | [] => needle.isEmpty
  | c :: t => needle.isPrefixOf (c :: t) || hasSub needle t

/-- Substring test on strings, used to state the "warning mentions ..."
parts of the spec. -/
def strMentions (hay needle : String) : Bool :=
  hasSub needle.data hay.data

/-- Errors that the `pypdf` library may raise while building a reader,
as distinguished by the exception handlers in `src/app.py`:
`pypdf.errors.PdfReadError` versus any other exception. -/
inductive EngineErr where
  | pdfReadError (msg : String)
  | otherError (msg : String)
deriving DecidableEq

/-- Abstraction of a successfully constructed `pypdf.PdfReader`, restricted
to the interface `parser.py` consumes: the three Info-dictionary metadata
values (absent or a string) and, for each page in traversal order, the
result of `page.extract_text()` (`None` or a string). -/
structure PdfReader where
  metaTitle : Option String
  metaAuthor : Option String
  metaCreationDate : Option String
  pageTexts : List (Option String)
deriving DecidableEq

/-- Type of the abstract reader construction `pypdf.PdfReader(io.BytesIO data)`:
a function from input bytes to either an engine error or a reader. -/
abbrev ReaderOf : Type := List Nat → Except EngineErr PdfReader

/-- Result of `_extract_metadata` in `src/pdf_parser/parser.py`. -/
structure Metadata where
  title : Option String
  author : Option String
  creation_date : Option String
  num_pages : Nat
deriving DecidableEq

/-- One entry of the `pages` list: `{"page": i, "text": text}`. -/
structure PageEntry where
  page : Nat
  text : String
deriving DecidableEq

/-- Full result dictionary `{"metadata": ..., "pages": ..., "warnings": ...}`. -/
structure ExtractionResult where
  metadata : Metadata
  pages : List PageEntry
  warnings : List String
deriving DecidableEq

/-- Embedding of the inner `_clean` of `_extract_metadata`
(`src/pdf_parser/parser.py` lines 36-39): `None` stays absent, otherwise the
value is stripped and an empty result is normalized to absent. -/
def _clean (value : Option String) : Option String :=
  match value with
  | none => none
  | some s =>
      let t := pyStrip s
      if t = "" then none else some t

/-- Embedding of `_extract_metadata` (`src/pdf_parser/parser.py` lines 33-46). -/
def _extract_metadata (reader : PdfReader) : Metadata :=
  { title := _clean reader.metaTitle
    author := _clean reader.metaAuthor
    creation_date := _clean reader.metaCreationDate
    num_pages := reader.pageTexts.length }

/-- The per-page loop of `_extract_pages` (`src/pdf_parser/parser.py` lines
54-59), started at index `i`: builds the `pages` entries in order and counts
the pages whose stripped text is empty (`image_only_pages`). -/
def extractPagesLoop (i : Nat) : List (Option String) → List PageEntry × Nat
  | [] => ([], 0)
  | t :: ts =>
      let text := pyStrip (orEmpty t)
      let rest := extractPagesLoop (i + 1) ts
      (⟨i, text⟩ :: rest.1, if text = "" then rest.2 + 1 else rest.2)

/-- The warning string emitted when every page is image-only
(`src/pdf_parser/parser.py` lines 64-68). -/
def scannedWarning : String :=
  "This PDF appears to be a scanned/image-only document. No text could be extracted. Consider using an OCR tool (e.g. ocrmypdf or Tesseract) to convert it first."

/-- The separator between the two counts in the count-based warning. -/
def ofSep : String := " of "

/-- The fixed tail of the count-based warning. -/
def countWarningTail : String :=
  " page(s) appear to be image-only and yielded no extractable text."

/-- The warning string emitted when some but not all pages are image-only
(`src/pdf_parser/parser.py` lines 70-73). -/
def countWarning (image_only_pages total : Nat) : String :=
  toString image_only_pages ++ (ofSep ++ (toString total ++ countWarningTail))

/-- Embedding of `_extract_pages` (`src/pdf_parser/parser.py` lines 49-75). -/
def _extract_pages (reader : PdfReader) : List PageEntry × List String :=
  let r := extractPagesLoop 1 reader.pageTexts
  let total := reader.pageTexts.length
  let warnings : List String :=
    if r.2 > 0 then
      if r.2 = total then [scannedWarning] else [countWarning r.2 total]
    else []
  (r.1, warnings)

/-- Embedding of `parse_pdf_bytes` (`src/pdf_parser/parser.py` lines 78-83),
with the reader construction passed in as the abstract `readerOf`. -/
def parse_pdf_bytes (readerOf : ReaderOf) (data : List Nat) :
    Except EngineErr ExtractionResult :=
  match readerOf data with
  | .error e => .error e
  | .ok reader =>
      let metadata := _extract_metadata reader
      let r := _extract_pages reader
      .ok { metadata := metadata, pages := r.1, warnings := r.2 }

/-- What the file system reports for a path, as distinguished by the checks
`path.exists()` and `path.is_file()` in `parse_pdf` (`src/pdf_parser/parser.py`
lines 88-92): the path is absent, is a regular file with the given byte
contents, or exists but is not a regular file (e.g. a directory). -/
inductive PathKind where
  | missing
  | file (contents : List Nat)
  | directory
deriving DecidableEq

/-- The exceptions `parse_pdf` can raise, as distinguished by the handlers in
`src/app.py`: `FileNotFoundError`, `ValueError`, or an error propagated from
the engine. -/
inductive PyError where
  | fileNotFoundError (msg : String)
  | valueError (msg : String)
  | engineError (e : EngineErr)
deriving DecidableEq

/-- Message prefix of the `FileNotFoundError` in `parse_pdf`. -/
def notFoundMsgPre : String := "PDF file not found: "

/-- Message prefix of the `ValueError` in `parse_pdf`. -/
def notAFileMsgPre : String := "Path is not a file: "

/-- Embedding of `parse_pdf` (`src/pdf_parser/parser.py` lines 86-93), with
the file system passed in as the abstract `fs`. -/
def parse_pdf (fs : String → PathKind) (readerOf : ReaderOf) (path : String) :
    Except PyError ExtractionResult :=
  match fs path with
  | .missing => .error (.fileNotFoundError (notFoundMsgPre ++ path))
  | .directory => .error (.valueError (notAFileMsgPre ++ path))
  | .file contents =>
      match parse_pdf_bytes readerOf contents with
      | .ok r => .ok r
      | .error e => .error (.engineError e)

/-- Ambient process state that a stateful implementation could read or
update: a global call counter and a clock.  The Python `parse_pdf_bytes`
touches no module-level mutable state and consults no clock. -/
structure GlobalState where
  counter : Nat
  clock : Nat
deriving DecidableEq

/-- State-threaded form of `parse_pdf_bytes`: the body of the Python function
(`src/pdf_parser/parser.py` lines 78-83) references only its argument and
locals, so the ambient state is passed through untouched and contributes
nothing to the result. -/
def parse_pdf_bytes_st (st : GlobalState) (readerOf : ReaderOf)
    (data : List Nat) : (Except EngineErr ExtractionResult) × GlobalState :=
  (parse_pdf_bytes readerOf data, st)

/-- Body of an HTTP response from the endpoints in `src/app.py`: either the
JSON error object or the serialized extraction result. -/
inductive ApiBody where
  | errorMsg (msg : String)
  | result (r : ExtractionResult)
deriving DecidableEq

/-- An uploaded file as seen by the `/parse` endpoint: the client-supplied
filename and the payload bytes. -/
structure UploadedFile where
  filename : String
  content : List Nat
deriving DecidableEq

/-- A multipart upload request: the optional "file" field. -/
structure UploadRequest where
  file : Option UploadedFile
deriving DecidableEq

/-- The configured upload ceiling `app.config` sets in `src/app.py` line 28:
50 MiB. -/
def MAX_CONTENT_LENGTH : Nat := 50 * 1024 * 1024

/-- Error message for a request without a "file" field. -/
def noFileFieldMsg : String := "No file field in request"

/-- Error message for an empty filename. -/
def emptyFilenameMsg : String := "Empty filename"

/-- Error message for a filename that does not end in ".pdf". -/
def notPdfMsg : String := "Uploaded file must be a PDF"

/-- Message prefix used by both endpoints for `pypdf.errors.PdfReadError`. -/
def invalidPdfMsgPre : String := "Invalid or corrupted PDF: "

/-- Error message for a missing "path" field in the JSON body. -/
def missingPathMsg : String := "Missing \x27path\x27 in JSON body"

/-- The required filename suffix. -/
def pdfExt : String := ".pdf"

/-- Body of the framework's 413 response for an oversized payload. -/
def tooLargeMsg : String := "Request Entity Too Large"

/-- Embedding of the view function `api_parse_upload` (`src/app.py` lines
36-55): field checks, filename checks, then the engine call with its three
outcomes. -/
def api_parse_upload (readerOf : ReaderOf) (req : UploadRequest) :
    Nat × ApiBody :=
  match req.file with
  | none => (400, .errorMsg noFileFieldMsg)
  | some uploaded =>
      if uploaded.filename = "" then (400, .errorMsg emptyFilenameMsg)
      else if pyEndsWith (pyLower uploaded.filename) pdfExt = false then
        (400, .errorMsg notPdfMsg)
      else
        match parse_pdf_bytes readerOf uploaded.content with
        | .ok r => (200, .result r)
        | .error (.pdfReadError m) => (422, .errorMsg (invalidPdfMsgPre ++ m))
        | .error (.otherError m) => (500, .errorMsg m)

/-- Modelled from the spec: the upload collaborator "must reject before
invoking the engine if the payload exceeds a configured size ceiling".  In
the source this enforcement lives in the Flask framework, not under `src/`:
setting `MAX_CONTENT_LENGTH` (`src/app.py` line 28) makes Flask answer
413 Request Entity Too Large before the view function runs.  `contentLength`
is the size of the request payload. -/
def handle_parse_upload (readerOf : ReaderOf) (contentLength : Nat)
    (req : UploadRequest) : Nat × ApiBody :=
  if MAX_CONTENT_LENGTH < contentLength then (413, .errorMsg tooLargeMsg)
  else api_parse_upload readerOf req

/-- Embedding of `api_parse_path` (`src/app.py` lines 58-76).  `bodyPath` is
the "path" field of the request's JSON body when present; an absent field or
body defaults to the empty string before stripping. -/
def api_parse_path (fs : String → PathKind) (readerOf : ReaderOf)
    (bodyPath : Option String) : Nat × ApiBody :=
  let path := pyStrip (orEmpty bodyPath)
  if path = "" then (400, .errorMsg missingPathMsg)
  else
    match parse_pdf fs readerOf path with
    | .ok r => (200, .result r)
    | .error (.fileNotFoundError m) => (404, .errorMsg m)
    | .error (.engineError (.pdfReadError m)) => (422, .errorMsg (invalidPdfMsgPre ++ m))
    | .error (.valueError m) => (500, .errorMsg m)
    | .error (.engineError (.otherError m)) => (500, .errorMsg m)

/-! Concrete sample inputs used to exercise the theorems below. -/

/-- The empty string. -/
def emptyStr : String := ""

/-- Sample title with surrounding whitespace. -/
def demoTitle : String := "  A title  "

/-- Sample whitespace-only string. -/
def demoBlank : String := "   "

/-- Sample page text. -/
def demoHello : String := "Hello"

/-- Sample page text with surrounding whitespace. -/
def demoWorld : String := " world "

/-- Sample reader: metadata with a trimmable title, an absent author, a
blank creation date, and four pages of which two yield no text. -/
def demoReader : PdfReader :=
  { metaTitle := some demoTitle
    metaAuthor := none
    metaCreationDate := some demoBlank
    pageTexts := [some demoHello, some demoBlank, none, some demoWorld] }

/-- Reader construction that always succeeds with `demoReader`. -/
def demoReaderOf : ReaderOf := fun _ => .ok demoReader

/-- Sample input bytes ("%PDF"). -/
def demoData : List Nat := [37, 80, 68, 70]

/-- Expected extraction result for `demoReader`. -/
def demoResult : ExtractionResult :=
  { metadata :=
      { title := some (pyStrip demoTitle)
        author := none
        creation_date := none
        num_pages := 4 }
    pages := [⟨1, demoHello⟩, ⟨2, emptyStr⟩, ⟨3, emptyStr⟩, ⟨4, pyStrip demoWorld⟩]
    warnings := [countWarning 2 4] }

/-- Sample reader whose pages are all image-only. -/
def blankReader : PdfReader :=
  { metaTitle := none
    metaAuthor := none
    metaCreationDate := none
    pageTexts := [none, some demoBlank] }

/-- Reader construction that always succeeds with `blankReader`. -/
def blankReaderOf : ReaderOf := fun _ => .ok blankReader

/-- Sample reader with a single text-bearing page. -/
def textReader : PdfReader :=
  { metaTitle := none
    metaAuthor := none
    metaCreationDate := none
    pageTexts := [some demoHello] }

/-- Reader construction that always succeeds with `textReader`. -/
def textReaderOf : ReaderOf := fun _ => .ok textReader

/-- Sample engine error message. -/
def demoErrMsg : String := "bad xref"

/-- Reader construction that always fails with a `PdfReadError`. -/
def failReaderOf : ReaderOf := fun _ => .error (.pdfReadError demoErrMsg)

/-- Sample path of an existing regular file. -/
def demoPathA : String := "/tmp/a.pdf"

/-- Sample path of a directory. -/
def demoPathB : String := "/tmp/dir"

/-- Sample file system: `demoPathA` is a regular file holding `demoData`,
`demoPathB` is a directory, everything else is absent. -/
def demoFs : String → PathKind := fun p =>
  if p = demoPathA then .file demoData
  else if p = demoPathB then .directory
  else .missing

/-- Sample upload with a conforming filename. -/
def demoUpload : UploadedFile := { filename := demoPathA, content := demoData }

/-! Helper lemmas about the embedded definitions. -/

/-- The page loop produces one entry per input page. -/
theorem extractPagesLoop_length (ts : List (Option String)) :
    ∀ i, (extractPagesLoop i ts).1.length = ts.length := by
  induction ts with
  | nil => intro i; rfl
  | cons t ts ih =>
      intro i
      simp only [extractPagesLoop, List.length_cons]
      rw [ih]

/-- The page numbers produced by the loop starting at `i` are
`i, i + 1, ...` in order. -/
theorem extractPagesLoop_pages (ts : List (Option String)) :
    ∀ i, (extractPagesLoop i ts).1.map PageEntry.page = List.range' i ts.length := by
  induction ts with
  | nil => intro i; rfl
  | cons t ts ih =>
      intro i
      simp only [extractPagesLoop, List.map_cons, List.length_cons, List.range']
      rw [ih]

/-- The texts produced by the loop are the stripped extracted texts, in
order. -/
theorem extractPagesLoop_texts (ts : List (Option String)) :
    ∀ i, (extractPagesLoop i ts).1.map PageEntry.text
      = ts.map (fun t => pyStrip (orEmpty t)) := by
  induction ts with
  | nil => intro i; rfl
  | cons t ts ih =>
      intro i
      simp only [extractPagesLoop, List.map_cons]
      rw [ih]

/-- The loop's image-only counter equals the number of produced entries
whose text is empty. -/
theorem extractPagesLoop_count (ts : List (Option String)) :
    ∀ i, (extractPagesLoop i ts).2
      = ((extractPagesLoop i ts).1.filter (fun pe => decide (pe.text = emptyStr))).length := by
  induction ts with
  | nil => intro i; rfl
  | cons t ts ih =>
      intro i
      have ih1 := ih (i + 1)
      simp only [emptyStr] at ih1 ⊢
      simp only [extractPagesLoop]
      by_cases h : pyStrip (orEmpty t) = ""
      · simp [List.filter, h, ih1]
      · simp [List.filter, h, ih1]

/-- Stripping from both ends is idempotent, at the list level: the first
remaining element (if any) survived the leading `dropWhile`, and the last
remaining element survived the trailing `rdropWhile`, so neither satisfies
the predicate. -/
theorem stripList_idem {α : Type} (p : α → Bool) (l : List α) :
    (((l.dropWhile p).rdropWhile p).dropWhile p).rdropWhile p
      = (l.dropWhile p).rdropWhile p := by
  have h1 : ((l.dropWhile p).rdropWhile p).dropWhile p
      = (l.dropWhile p).rdropWhile p := by
    rw [List.dropWhile_eq_self_iff]
    intro hl
    have hpre : (l.dropWhile p).rdropWhile p <+: l.dropWhile p :=
      List.rdropWhile_prefix p (l.dropWhile p)
    have hne : (l.dropWhile p).rdropWhile p ≠ [] := List.ne_nil_of_length_pos hl
    rw [List.get_mk_zero hl, hpre.head hne]
    simp [List.head_dropWhile_not]
  rw [h1]
  exact List.rdropWhile_eq_self_iff.mpr
    (fun hl => List.rdropWhile_last_not p (l.dropWhile p) hl)

/-- Python strip is idempotent: a stripped string has no whitespace left to
remove at either end. -/
theorem pyStrip_idem (s : String) : pyStrip (pyStrip s) = pyStrip s :=
  congrArg String.mk (stripList_idem Char.isWhitespace s.data)

/-- The empty needle occurs in every haystack. -/
theorem hasSub_nil (hay : List Char) : hasSub [] hay = true := by
  cases hay <;> simp [hasSub]

/-- A needle occurs in every haystack it prefixes. -/
theorem hasSub_of_prefix (needle post : List Char) :
    hasSub needle (needle ++ post) = true := by
  cases needle with
  | nil => simpa using hasSub_nil post
  | cons a as =>
      simp only [List.cons_append, hasSub]
      have h : (a :: as).isPrefixOf (a :: (as ++ post)) = true := by
        rw [List.isPrefixOf_iff_prefix]
        exact ⟨post, by simp⟩
      simp [h]

/-- A needle occurs in every haystack that contains it contiguously. -/
theorem hasSub_mid (pre needle post : List Char) :
    hasSub needle (pre ++ (needle ++ post)) = true := by
  induction pre with
  | nil => simpa using hasSub_of_prefix needle post
  | cons c pre ih =>
      simp only [List.cons_append, hasSub, ih]
      simp [ih]

/-- The count-based warning mentions the image-only count. -/
theorem countWarning_mentions_count (k total : Nat) :
    strMentions (countWarning k total) (toString k) = true :=
  hasSub_of_prefix (toString k).data (ofSep ++ (toString total ++ countWarningTail)).data

/-- The count-based warning mentions the total page count. -/
theorem countWarning_mentions_total (k total : Nat) :
    strMentions (countWarning k total) (toString total) = true := by
  show hasSub (toString total).data
      ((toString k).data ++ (ofSep.data ++ ((toString total).data ++ countWarningTail.data)))
      = true
  rw [← List.append_assoc]
  exact hasSub_mid ((toString k).data ++ ofSep.data) (toString total).data
    countWarningTail.data

/-- Number of result entries whose text is the empty string: the spec's
notion of "pages classified image-only", read off the result. -/
def imageOnlyCount (pages : List PageEntry) : Nat :=
  (pages.filter (fun pe => decide (pe.text = emptyStr))).length

/-- Substring the spec requires the all-pages warning to mention. -/
def scannedSub : String := "scanned"

/-- Substring the spec requires the all-pages warning to mention. -/
def imageSub : String := "image"

/-- Missing path used in concrete instantiations. -/
def demoPathC : String := "/tmp/missing.pdf"

/-- Specification predicate for one metadata field, following the spec's
words: an absent input stays absent; a present value is trimmed, and an
empty-after-trim value is normalized to absent, otherwise the trimmed value
is reported. -/
def cleanSpec (input out : Option String) : Prop :=
  match input with
  | none => out = none
  | some s =>
      (pyStrip s = emptyStr → out = none)
        ∧ (pyStrip s ≠ emptyStr → out = some (pyStrip s))

/-- The code's `_clean` satisfies the field specification. -/
theorem _clean_cleanSpec (v : Option String) : cleanSpec v (_clean v) := by
  cases v with
  | none => rfl
  | some s =>
      constructor
      · intro h
        simp [_clean, h, emptyStr]
      · intro h
        simp only [emptyStr] at h
        simp [_clean, h]

/-- The code's `_clean` never reports a present-but-empty value. -/
theorem _clean_ne_some_empty (v : Option String) : _clean v ≠ some emptyStr := by
  cases v with
  | none => simp [_clean]
  | some s =>
      by_cases h : pyStrip s = ""
      · simp [_clean, h]
      · simp [_clean, h, emptyStr]

/-- A successful reader construction makes `parse_pdf_bytes` succeed with the
assembled result. -/
theorem parse_pdf_bytes_eq (readerOf : ReaderOf) (data : List Nat)
    (reader : PdfReader) (hr : readerOf data = .ok reader) :
    parse_pdf_bytes readerOf data = .ok
      { metadata := _extract_metadata reader
        pages := (_extract_pages reader).1
        warnings := (_extract_pages reader).2 } := by
  unfold parse_pdf_bytes
  rw [hr]

/-- A failed reader construction propagates the error unchanged. -/
theorem parse_pdf_bytes_error (readerOf : ReaderOf) (data : List Nat)
    (e : EngineErr) (he : readerOf data = .error e) :
    parse_pdf_bytes readerOf data = .error e := by
  unfold parse_pdf_bytes
  rw [he]

/-- Inversion: any successful parse comes from a successfully constructed
reader, and the result components are exactly the metadata extraction and
page extraction of that reader. -/
theorem parse_ok_inv (readerOf : ReaderOf) (data : List Nat)
    (r : ExtractionResult) (h : parse_pdf_bytes readerOf data = .ok r) :
    ∃ reader, readerOf data = .ok reader
      ∧ r.metadata = _extract_metadata reader
      ∧ r.pages = (_extract_pages reader).1
      ∧ r.warnings = (_extract_pages reader).2 := by
  cases hr : readerOf data with
  | error e =>
      rw [parse_pdf_bytes_error readerOf data e hr] at h
      simp at h
  | ok reader =>
      rw [parse_pdf_bytes_eq readerOf data reader hr] at h
      injection h with h
      exact ⟨reader, rfl, by rw [← h], by rw [← h], by rw [← h]⟩

/-- The pages component of `_extract_pages` is the loop's page list. -/
theorem _extract_pages_fst (reader : PdfReader) :
    (_extract_pages reader).1 = (extractPagesLoop 1 reader.pageTexts).1 := rfl

/-- The warnings component of `_extract_pages`, written out. -/
theorem _extract_pages_snd (reader : PdfReader) :
    (_extract_pages reader).2 =
      (if (extractPagesLoop 1 reader.pageTexts).2 > 0 then
        if (extractPagesLoop 1 reader.pageTexts).2 = reader.pageTexts.length
        then [scannedWarning]
        else [countWarning (extractPagesLoop 1 reader.pageTexts).2
          reader.pageTexts.length]
      else []) := rfl

/-- One extracted entry per page. -/
theorem _extract_pages_length (reader : PdfReader) :
    (_extract_pages reader).1.length = reader.pageTexts.length := by
  rw [_extract_pages_fst]
  exact extractPagesLoop_length reader.pageTexts 1

/-- The extracted page numbers are `1, 2, ...` in order. -/
theorem _extract_pages_map_page (reader : PdfReader) :
    (_extract_pages reader).1.map PageEntry.page
      = List.range' 1 reader.pageTexts.length := by
  rw [_extract_pages_fst]
  exact extractPagesLoop_pages reader.pageTexts 1

/-- The extracted texts are the stripped per-page strings, in order. -/
theorem _extract_pages_map_text (reader : PdfReader) :
    (_extract_pages reader).1.map PageEntry.text
      = reader.pageTexts.map (fun t => pyStrip (orEmpty t)) := by
  rw [_extract_pages_fst]
  exact extractPagesLoop_texts reader.pageTexts 1

/-- The warnings of `_extract_pages`, phrased through the result pages: the
code's image-only counter equals the number of empty-text result entries, and
the total it compares against equals the number of result entries. -/
theorem _extract_pages_warnings (reader : PdfReader) :
    (_extract_pages reader).2 =
      (if imageOnlyCount (_extract_pages reader).1 > 0 then
        if imageOnlyCount (_extract_pages reader).1
            = (_extract_pages reader).1.length
        then [scannedWarning]
        else [countWarning (imageOnlyCount (_extract_pages reader).1)
          (_extract_pages reader).1.length]
      else []) := by
  unfold imageOnlyCount
  rw [_extract_pages_snd, _extract_pages_fst,
    ← extractPagesLoop_count reader.pageTexts 1,
    extractPagesLoop_length reader.pageTexts 1]

/-- The code's image-only counter equals the count of empty-text entries. -/
theorem _extract_pages_count (reader : PdfReader) :
    (extractPagesLoop 1 reader.pageTexts).2
      = imageOnlyCount (_extract_pages reader).1 := by
  rw [_extract_pages_fst]
  unfold imageOnlyCount
  exact extractPagesLoop_count reader.pageTexts 1

/-- Result with one text-bearing page, used as a concrete instantiation. -/
def textResult : ExtractionResult :=
  { metadata :=
      { title := none, author := none, creation_date := none, num_pages := 1 }
    pages := [⟨1, demoHello⟩]
    warnings := [] }

/-! Claim theorems. -/

/-- C1: for every input byte sequence on which `parse_pdf_bytes` returns a
result, the length of the returned pages list equals `metadata.num_pages`;
both are computed from the page list of the same reader. -/
theorem num_pages_eq_pages_length (readerOf : ReaderOf) (data : List Nat)
    (r : ExtractionResult) (h : parse_pdf_bytes readerOf data = .ok r) :
    r.pages.length = r.metadata.num_pages := by
  obtain ⟨reader, -, hm, hp, -⟩ := parse_ok_inv readerOf data r h
  rw [hm, hp, _extract_pages_length]
  rfl

/-- C1 witness: the theorem applied to a concrete successful parse. -/
theorem num_pages_eq_pages_length_witness :
    demoResult.pages.length = demoResult.metadata.num_pages :=
  num_pages_eq_pages_length demoReaderOf demoData demoResult (by rfl)

/-- C3: each of the metadata fields title, author and creation_date is
reported as the trimmed input value, with an absent or empty-after-trim
value reported as absent and never as an empty string. -/
theorem metadata_trimmed_or_absent (readerOf : ReaderOf) (data : List Nat)
    (reader : PdfReader) (hr : readerOf data = .ok reader)
    (r : ExtractionResult) (h : parse_pdf_bytes readerOf data = .ok r) :
    (r.metadata.title ≠ some emptyStr
        ∧ r.metadata.author ≠ some emptyStr
        ∧ r.metadata.creation_date ≠ some emptyStr)
      ∧ cleanSpec reader.metaTitle r.metadata.title
      ∧ cleanSpec reader.metaAuthor r.metadata.author
      ∧ cleanSpec reader.metaCreationDate r.metadata.creation_date := by
  rw [parse_pdf_bytes_eq readerOf data reader hr] at h
  injection h with h
  rw [← h]
  exact ⟨⟨_clean_ne_some_empty _, _clean_ne_some_empty _, _clean_ne_some_empty _⟩,
    _clean_cleanSpec _, _clean_cleanSpec _, _clean_cleanSpec _⟩

/-- C3 witness: a trimmable title is reported trimmed, a blank creation date
is reported absent, and the title is never the empty string. -/
theorem metadata_trimmed_or_absent_witness :
    demoResult.metadata.title = some (pyStrip demoTitle)
      ∧ demoResult.metadata.creation_date = none
      ∧ demoResult.metadata.title ≠ some emptyStr := by
  have h := metadata_trimmed_or_absent demoReaderOf demoData demoReader rfl
    demoResult (by rfl)
  exact ⟨h.2.1.2 (by decide), h.2.2.2.1 (by decide), h.1.1⟩

/-- C5: the stored page texts are exactly the whitespace-trimmed extracted
strings (so no stored text has leading or trailing whitespace), and the
code's image-only counter equals the number of result entries whose text is
the empty string: a page is classified image-only iff its result text is
empty. -/
theorem image_only_iff_empty_text (readerOf : ReaderOf) (data : List Nat)
    (reader : PdfReader) (hr : readerOf data = .ok reader)
    (r : ExtractionResult) (h : parse_pdf_bytes readerOf data = .ok r) :
    r.pages.map PageEntry.text
        = reader.pageTexts.map (fun t => pyStrip (orEmpty t))
      ∧ (∀ pe ∈ r.pages, pyStrip pe.text = pe.text)
      ∧ (extractPagesLoop 1 reader.pageTexts).2 = imageOnlyCount r.pages := by
  rw [parse_pdf_bytes_eq readerOf data reader hr] at h
  injection h with h
  rw [← h]
  refine ⟨_extract_pages_map_text reader, ?_, _extract_pages_count reader⟩
  intro pe hpe
  have hmem : pe.text ∈ (_extract_pages reader).1.map PageEntry.text :=
    List.mem_map_of_mem PageEntry.text hpe
  rw [_extract_pages_map_text reader] at hmem
  obtain ⟨t, -, hte⟩ := List.mem_map.mp hmem
  rw [← hte]
  exact pyStrip_idem (orEmpty t)

/-- C5 witness: the theorem applied to a concrete parse, including the
trimmed-text property of the fourth page entry. -/
theorem image_only_iff_empty_text_witness :
    demoResult.pages.map PageEntry.text
        = demoReader.pageTexts.map (fun t => pyStrip (orEmpty t))
      ∧ pyStrip (pyStrip demoWorld) = pyStrip demoWorld
      ∧ (extractPagesLoop 1 demoReader.pageTexts).2
        = imageOnlyCount demoResult.pages := by
  have h := image_only_iff_empty_text demoReaderOf demoData demoReader rfl
    demoResult (by rfl)
  exact ⟨h.1, h.2.1 ⟨4, pyStrip demoWorld⟩ (by decide), h.2.2⟩

/-- C8: the page numbers in the result are 1-based, assigned in traversal
order and strictly ascending: mapping `page` over the entries yields
`[1, 2, ..., n]`. -/
theorem pages_one_based_ascending (readerOf : ReaderOf) (data : List Nat)
    (r : ExtractionResult) (h : parse_pdf_bytes readerOf data = .ok r) :
    r.pages.map PageEntry.page = List.range' 1 r.pages.length := by
  obtain ⟨reader, -, -, hp, -⟩ := parse_ok_inv readerOf data r h
  rw [hp, _extract_pages_map_page, _extract_pages_length]

/-- C8 witness: the theorem applied to a concrete four-page parse. -/
theorem pages_one_based_ascending_witness :
    demoResult.pages.map PageEntry.page
      = List.range' 1 demoResult.pages.length :=
  pages_one_based_ascending demoReaderOf demoData demoResult (by rfl)

/-- C9: `parse_pdf_bytes` is deterministic: threading any ambient global
state (counter, clock) through the call leaves the state untouched and the
result independent of it, so two calls on identical bytes yield identical
results. -/
theorem parse_pdf_bytes_deterministic (st₁ st₂ : GlobalState)
    (readerOf : ReaderOf) (data : List Nat) :
    (parse_pdf_bytes_st st₁ readerOf data).1
        = (parse_pdf_bytes_st st₂ readerOf data).1
      ∧ (parse_pdf_bytes_st st₁ readerOf data).2 = st₁ :=
  ⟨rfl, rfl⟩

/-- C10: for a path naming an existing regular file, the path-based entry
point returns exactly the bytes-based entry point applied to the file's
contents (results unchanged, engine errors wrapped as such). -/
theorem parse_pdf_refines_parse_pdf_bytes (fs : String → PathKind)
    (readerOf : ReaderOf) (path : String) (contents : List Nat)
    (h : fs path = .file contents) :
    parse_pdf fs readerOf path
      = (parse_pdf_bytes readerOf contents).mapError PyError.engineError := by
  unfold parse_pdf
  rw [h]
  cases hb : parse_pdf_bytes readerOf contents <;> simp [hb, Except.mapError]

/-- C10 witness: the theorem applied to a concrete file system. -/
theorem parse_pdf_refines_parse_pdf_bytes_witness :
    parse_pdf demoFs demoReaderOf demoPathA
      = (parse_pdf_bytes demoReaderOf demoData).mapError PyError.engineError :=
  parse_pdf_refines_parse_pdf_bytes demoFs demoReaderOf demoPathA demoData
    (by decide)

/-- C2: the aggregate image-only warning follows the three-way policy: with
`k` image-only pages out of `n`, the result carries exactly the single
scanned-document warning when `0 < k = n` (its text mentions "scanned" and
"image"), exactly the single count-based warning mentioning `k` and `n` when
`0 < k < n`, and no warning when `k = 0`. -/
theorem image_only_warning_policy (readerOf : ReaderOf) (data : List Nat)
    (r : ExtractionResult) (h : parse_pdf_bytes readerOf data = .ok r) :
    ((0 < imageOnlyCount r.pages
        ∧ imageOnlyCount r.pages = r.pages.length) →
      r.warnings = [scannedWarning]
        ∧ strMentions scannedWarning scannedSub = true
        ∧ strMentions scannedWarning imageSub = true)
    ∧ ((0 < imageOnlyCount r.pages
        ∧ imageOnlyCount r.pages < r.pages.length) →
      r.warnings = [countWarning (imageOnlyCount r.pages) r.pages.length]
        ∧ strMentions (countWarning (imageOnlyCount r.pages) r.pages.length)
            (toString (imageOnlyCount r.pages)) = true
        ∧ strMentions (countWarning (imageOnlyCount r.pages) r.pages.length)
            (toString r.pages.length) = true)
    ∧ (imageOnlyCount r.pages = 0 → r.warnings = []) := by
  obtain ⟨reader, -, -, hp, hw⟩ := parse_ok_inv readerOf data r h
  rw [hw, hp, _extract_pages_warnings]
  refine ⟨?_, ?_, ?_⟩
  · rintro ⟨h0, he⟩
    rw [if_pos h0, if_pos he]
    exact ⟨rfl, by decide, by decide⟩
  · rintro ⟨h0, hlt⟩
    rw [if_pos h0, if_neg (Nat.ne_of_lt hlt)]
    exact ⟨rfl, countWarning_mentions_count _ _, countWarning_mentions_total _ _⟩
  · intro h0
    have h' : ¬ imageOnlyCount (_extract_pages reader).1 > 0 := by
      rw [h0]
      exact Nat.lt_irrefl 0
    rw [if_neg h']

/-- C2 witness: the theorem applied to a parse with two image-only pages out
of four, hitting the count-based branch. -/
theorem image_only_warning_policy_witness :
    demoResult.warnings
        = [countWarning (imageOnlyCount demoResult.pages)
            demoResult.pages.length]
      ∧ strMentions
          (countWarning (imageOnlyCount demoResult.pages)
            demoResult.pages.length)
          (toString (imageOnlyCount demoResult.pages)) = true
      ∧ strMentions
          (countWarning (imageOnlyCount demoResult.pages)
            demoResult.pages.length)
          (toString demoResult.pages.length) = true :=
  (image_only_warning_policy demoReaderOf demoData demoResult (by rfl)).2.1
    ⟨by decide, by decide⟩

/-- C4: the warnings list of a produced result is empty iff no page was
classified image-only; structural damage makes the reader construction fail,
which propagates as an error instead of producing a result, so a produced
result encountered none. -/
theorem warnings_empty_iff_no_image_only (readerOf : ReaderOf)
    (data : List Nat) :
    (∀ r, parse_pdf_bytes readerOf data = .ok r →
      (r.warnings = [] ↔ ∀ pe ∈ r.pages, pe.text ≠ emptyStr))
    ∧ (∀ e, readerOf data = .error e →
      parse_pdf_bytes readerOf data = .error e) := by
  constructor
  · intro r h
    obtain ⟨reader, -, -, hp, hw⟩ := parse_ok_inv readerOf data r h
    rw [hw, hp, _extract_pages_warnings]
    constructor
    · intro hempty
      have hk0 : imageOnlyCount (_extract_pages reader).1 = 0 := by
        by_contra hk
        have hkpos : 0 < imageOnlyCount (_extract_pages reader).1 :=
          Nat.pos_of_ne_zero hk
        rw [if_pos hkpos] at hempty
        by_cases he : imageOnlyCount (_extract_pages reader).1
            = (_extract_pages reader).1.length
        · rw [if_pos he] at hempty
          exact List.cons_ne_nil _ _ hempty
        · rw [if_neg he] at hempty
          exact List.cons_ne_nil _ _ hempty
      intro pe hpe hpet
      unfold imageOnlyCount at hk0
      rw [List.length_eq_zero] at hk0
      have hmem : pe ∈ (_extract_pages reader).1.filter
          (fun pe => decide (pe.text = emptyStr)) :=
        List.mem_filter.mpr ⟨hpe, by simp [hpet]⟩
      rw [hk0] at hmem
      simp at hmem
    · intro hall
      have hk0 : imageOnlyCount (_extract_pages reader).1 = 0 := by
        unfold imageOnlyCount
        rw [List.length_eq_zero, List.filter_eq_nil_iff]
        intro pe hpe
        simpa using hall pe hpe
      have h' : ¬ imageOnlyCount (_extract_pages reader).1 > 0 := by
        rw [hk0]
        exact Nat.lt_irrefl 0
      rw [if_neg h']
  · intro e he
    exact parse_pdf_bytes_error readerOf data e he

/-- C4 witness: a result whose single page bears text has no warnings, and a
failing reader construction yields an error, not a result. -/
theorem warnings_empty_iff_no_image_only_witness :
    (textResult.warnings = [] ↔ ∀ pe ∈ textResult.pages, pe.text ≠ emptyStr)
      ∧ parse_pdf_bytes failReaderOf demoData
        = .error (.pdfReadError demoErrMsg) :=
  ⟨(warnings_empty_iff_no_image_only textReaderOf demoData).1 textResult
      (by rfl),
    (warnings_empty_iff_no_image_only failReaderOf demoData).2
      (.pdfReadError demoErrMsg) rfl⟩

/-- C6: a missing path makes `parse_pdf` raise `FileNotFoundError`, an
existing path that is not a regular file raises the distinct `ValueError`,
and the path-based endpoint answers 404 only when `parse_pdf` raised
`FileNotFoundError`. -/
theorem path_error_discrimination (fs : String → PathKind)
    (readerOf : ReaderOf) (path : String) :
    (fs path = .missing →
      parse_pdf fs readerOf path
        = .error (.fileNotFoundError (notFoundMsgPre ++ path)))
    ∧ (fs path = .directory →
      parse_pdf fs readerOf path
        = .error (.valueError (notAFileMsgPre ++ path)))
    ∧ (∀ bodyPath, (api_parse_path fs readerOf bodyPath).1 = 404 →
      ∃ m, parse_pdf fs readerOf (pyStrip (orEmpty bodyPath))
        = .error (.fileNotFoundError m)) := by
  refine ⟨?_, ?_, ?_⟩
  · intro h
    unfold parse_pdf
    rw [h]
  · intro h
    unfold parse_pdf
    rw [h]
  · intro bodyPath h404
    simp only [api_parse_path] at h404
    by_cases hp : pyStrip (orEmpty bodyPath) = ""
    · rw [if_pos hp] at h404
      simp at h404
    · rw [if_neg hp] at h404
      cases hres : parse_pdf fs readerOf (pyStrip (orEmpty bodyPath)) with
      | ok r =>
          rw [hres] at h404
          simp at h404
      | error e =>
          cases e with
          | fileNotFoundError m => exact ⟨m, rfl⟩
          | valueError m =>
              rw [hres] at h404
              simp at h404
          | engineError ee =>
              cases ee with
              | pdfReadError m =>
                  rw [hres] at h404
                  simp at h404
              | otherError m =>
                  rw [hres] at h404
                  simp at h404

/-- C6 witness: the theorem applied to a concrete file system with a missing
path and a directory path. -/
theorem path_error_discrimination_witness :
    parse_pdf demoFs demoReaderOf demoPathC
        = .error (.fileNotFoundError (notFoundMsgPre ++ demoPathC))
      ∧ parse_pdf demoFs demoReaderOf demoPathB
        = .error (.valueError (notAFileMsgPre ++ demoPathB))
      ∧ ∃ m, parse_pdf demoFs demoReaderOf (pyStrip (orEmpty (some demoPathC)))
        = .error (.fileNotFoundError m) :=
  ⟨(path_error_discrimination demoFs demoReaderOf demoPathC).1 (by decide),
    (path_error_discrimination demoFs demoReaderOf demoPathB).2.1 (by decide),
    (path_error_discrimination demoFs demoReaderOf demoPathC).2.2
      (some demoPathC) (by decide)⟩

/-- C7: the upload endpoint rejects oversized payloads with 413 and missing,
empty or non-`.pdf` filenames with 400, in all cases with a response fixed
independently of the engine (`readerOf` is arbitrary, so the engine is not
consulted); on a conforming request it returns 200 with the engine result,
422 for a structural PDF failure, and 500 for any other engine exception. -/
theorem upload_endpoint_policy (readerOf : ReaderOf) (len : Nat)
    (req : UploadRequest) :
    (MAX_CONTENT_LENGTH < len →
      handle_parse_upload readerOf len req = (413, .errorMsg tooLargeMsg))
    ∧ (¬ MAX_CONTENT_LENGTH < len →
      (req.file = none →
        handle_parse_upload readerOf len req
          = (400, .errorMsg noFileFieldMsg))
      ∧ ∀ u, req.file = some u →
        (u.filename = emptyStr →
          handle_parse_upload readerOf len req
            = (400, .errorMsg emptyFilenameMsg))
        ∧ (u.filename ≠ emptyStr →
            pyEndsWith (pyLower u.filename) pdfExt = false →
          handle_parse_upload readerOf len req = (400, .errorMsg notPdfMsg))
        ∧ (u.filename ≠ emptyStr →
            pyEndsWith (pyLower u.filename) pdfExt = true →
          (∀ r, parse_pdf_bytes readerOf u.content = .ok r →
            handle_parse_upload readerOf len req = (200, .result r))
          ∧ (∀ m, parse_pdf_bytes readerOf u.content
                = .error (.pdfReadError m) →
            handle_parse_upload readerOf len req
              = (422, .errorMsg (invalidPdfMsgPre ++ m)))
          ∧ (∀ m, parse_pdf_bytes readerOf u.content
                = .error (.otherError m) →
            handle_parse_upload readerOf len req
              = (500, .errorMsg m)))) := by
  constructor
  · intro hlen
    unfold handle_parse_upload
    rw [if_pos hlen]
  · intro hlen
    have hh : handle_parse_upload readerOf len req
        = api_parse_upload readerOf req := by
      unfold handle_parse_upload
      rw [if_neg hlen]
    constructor
    · intro hnone
      rw [hh]
      unfold api_parse_upload
      rw [hnone]
    · intro u hu
      refine ⟨?_, ?_, ?_⟩
      · intro hemp
        simp only [emptyStr] at hemp
        rw [hh]
        simp [api_parse_upload, hu, hemp]
      · intro hne hnend
        simp only [emptyStr] at hne
        rw [hh]
        simp [api_parse_upload, hu, hne, hnend]
      · intro hne hend
        simp only [emptyStr] at hne
        refine ⟨?_, ?_, ?_⟩ <;> intro x hx <;> rw [hh] <;>
          simp [api_parse_upload, hu, hne, hend, hx]

/-- C7 witness: a conforming upload of the demo bytes is answered 200 with
the engine result. -/
theorem upload_endpoint_policy_witness :
    handle_parse_upload demoReaderOf 0 { file := some demoUpload }
      = (200, ApiBody.result demoResult) := by
  have h := upload_endpoint_policy demoReaderOf 0 { file := some demoUpload }
  exact (((h.2 (by decide)).2 demoUpload rfl).2.2 (by decide) (by decide)).1
    demoResult (by rfl)

end PdfParse
